import Mathlib

/-!
Shallow embedding of the write path of `src/serializer/serializer.cc`
(RethinkDB serializer write pipeline): write descriptors, the per-descriptor
dispatch `perform_write`, the batch committer `do_writes`, the completion
handle `write_cond_t`, and the single-block path `serializer_block_write`.

The executing task's visible actions are recorded as an explicit event
trace: physical-write submissions, launch-callback invocations, waits on
completion handles, and the index commit.  External collaborators that are
not part of the source file (the physical layer `block_writes`, the
single-shot latch `cond_t`, the timestamp sentinel `repli_timestamp_t`)
are modelled from the spec, as marked on their doc comments.
-/

/-- Logical block identifier (`block_id_t`). -/
abbrev block_id_t := Nat

/-- Modelled from the spec: `repli_timestamp_t` is a timestamp attached to a
block version, with a distinguished invalid sentinel meaning "no data"
(used by DELETE).  The definition of `repli_timestamp_t` itself is outside
`src/`. -/
inductive repli_timestamp_t where
  | invalid : repli_timestamp_t
  | valid : Nat → repli_timestamp_t
deriving DecidableEq, Repr

/-- Modelled from the spec: `standard_block_token_t` is an immutable handle
to a freshly written block's physical location, issued by the physical
layer; we identify a token with its issue number.  A
`counted_t<standard_block_token_t>` is `Option standard_block_token_t`,
with `none` standing for the empty (null) counted pointer. -/
abbrev standard_block_token_t := Nat

/-- The tagged payload of a `serializer_write_t` (`action_type` plus the
matching member of the `action` union).  Callbacks are identified by
opaque numbers; a null callback pointer is `none`. -/
inductive write_action where
  | update : (buf : Nat) → (recency : repli_timestamp_t) →
      ( io_callback : Option Nat) → (launch_callback : Option Nat) → write_action
  | delete : write_action
  | touch : (recency : repli_timestamp_t) → write_action
deriving DecidableEq, Repr

/-- `serializer_write_t`: one requested operation on one block. -/
structure serializer_write_t where
  block_id : block_id_t
  action : write_action
deriving DecidableEq, Repr

/-- `serializer_write_t::make_touch`. -/
def serializer_write_t.make_touch (block_id : block_id_t)
    (recency : repli_timestamp_t) : serializer_write_t :=
  { block_id := block_id, action := write_action.touch recency }

/-- `serializer_write_t::make_update`. -/
def serializer_write_t.make_update (block_id : block_id_t)
    (recency : repli_timestamp_t) (buf : Nat) ( io_callback : Option Nat)
    (launch_callback : Option Nat) : serializer_write_t :=
  { block_id := block_id,
    action := write_action.update buf recency io_callback launch_callback }

/-- `serializer_write_t::make_delete`. -/
def serializer_write_t.make_delete (block_id : block_id_t) : serializer_write_t :=
  { block_id := block_id, action := write_action.delete }

/-- `index_write_op_t`: the index update assembled for one descriptor.
`token` and `recency` are optional fields left unset by the constructor;
`token = some none` is an assigned-but-null (empty counted) token, while
`token = none` means the field was never assigned. -/
structure index_write_op_t where
  block_id : block_id_t
  token : Option (Option standard_block_token_t) := none
  recency : Option repli_timestamp_t := none
deriving DecidableEq, Repr

/-- `index_write_op_t(block_id)`: the constructor used in `do_writes`,
leaving `token` and `recency` unset. -/
def index_write_op_t.init (block_id : block_id_t) : index_write_op_t :=
  { block_id := block_id }

/-- Modelled from the spec: `cond_t`, the single-shot latch behind a
Completion Handle — settable once; signalling an already-signalled latch
is a fatal contract violation (modelled as `none`).  `cond_t` lives
outside `src/`. -/
structure cond_t where
  pulsed : Bool
deriving DecidableEq, Repr

/-- Modelled from the spec: `cond_t::pulse` signals the latch; reuse of a
signalled handle is fatal. -/
def cond_t.pulse (c : cond_t) : Option cond_t :=
  if c.pulsed then none else some { pulsed := true }

/-- `write_cond_t`: a Completion Handle — a latch plus an optional
caller-supplied completion callback. -/
structure write_cond_t where
  cond : cond_t
  callback : Option Nat
deriving DecidableEq, Repr

/-- `write_cond_t(cb)`: constructed unsignalled, wrapping the callback. -/
def write_cond_t.init (cb : Option Nat) : write_cond_t :=
  { cond := { pulsed := false }, callback := cb }

/-- `buf_write_info_t`: one physical write request (serializer buffer,
size in serialized form, target block). -/
structure buf_write_info_t where
  buf : Nat
  size : Nat
  block_id : block_id_t
deriving DecidableEq, Repr

/-- `convert_buffer_cache_buf_to_ser_buffer`: the serializer buffer header
sits one `ser_buffer_t` before the cache buffer pointer. -/
def convert_buffer_cache_buf_to_ser_buffer (buf : Nat) : Nat := buf - 1

/-- Observable actions of the task executing the write pipeline. -/
inductive event where
  | submit_write : buf_write_info_t → (cond_index : Nat) → event
  | launch_callback : (cb : Nat) → standard_block_token_t → event
  |  io_callback : (cb : Nat) → event
  | pulse_cond : event
  | wait_cond : (cond_index : Nat) → event
  | index_write : List index_write_op_t → event
deriving DecidableEq, Repr

/-- Modelled from the spec: the serializer's physical layer.  `block_size`
is the configured block size; `next_token` the issue counter for block
tokens. -/
structure serializer_t where
  block_size : Nat
  next_token : Nat
deriving DecidableEq, Repr

/-- `serializer_t::get_block_size().ser_value()`. -/
def serializer_t.get_block_size (ser : serializer_t) : Nat := ser.block_size

/-- Modelled from the spec: `serializer_t::block_writes` submits the given
physical writes and returns one freshly issued Block Token per submitted
write; the completion sink is invoked asynchronously on durability (the
signal is observed at the matching `wait` in the trace). -/
def serializer_t.block_writes (ser : serializer_t)
    (infos : List buf_write_info_t) :
    List standard_block_token_t × serializer_t :=
  ((List.range infos.length).map fun i => ser.next_token + i,
   { ser with next_token := ser.next_token + infos.length })

/-- `guarantee(b)`: fatal unless `b` holds. -/
def guarantee (b : Bool) : Option Unit :=
  if b then some () else none

/-- The launch-callback invocation an UPDATE performs once its physical
write has been accepted into flight: one event when the callback is
non-null, nothing otherwise. -/
def launch_evs (lcb : Option Nat) (tok : standard_block_token_t) : List event :=
  match lcb with
  | some cb => [event.launch_callback cb tok]
  | none => []

/-- `write_cond_t::on_io_complete`: invoke the caller-supplied callback if
present, then pulse the latch. -/
def write_cond_t.on_io_complete (w : write_cond_t) :
    Option (write_cond_t × List event) :=
  let cb_events : List event :=
    match w.callback with
    | some cb => [event.io_callback cb]
    | none => []
  match w.cond.pulse with
  | none => none
  | some c => some ({ w with cond := c }, cb_events ++ [event.pulse_cond])

/-- `perform_write`: dispatch one descriptor.  UPDATE pushes a new
Completion Handle, submits one physical write, checks the one-token
guarantee, stores the token and recency in the op and fires the launch
callback; DELETE stores a null token and the invalid recency; TOUCH stores
only the recency.  Returns the updated serializer state, handle list,
index op, and this step's events (`none` = fatal `guarantee`). -/
def perform_write (write : serializer_write_t) (ser : serializer_t)
    (conds : List write_cond_t) (op : index_write_op_t) :
    Option (serializer_t × List write_cond_t × index_write_op_t × List event) :=
  match write.action with
  | write_action.update buf recency io_cb launch_cb =>
      let conds2 := conds ++ [write_cond_t.init io_cb]
      let info : buf_write_info_t :=
        { buf := convert_buffer_cache_buf_to_ser_buffer buf,
          size := ser.get_block_size, block_id := op.block_id }
      let res := ser.block_writes [info]
      match guarantee (res.1.length == 1) with
      | none => none
      | some _ =>
          match res.1 with
          | [] => none
          | tok :: _ =>
              some (res.2, conds2,
                { op with token := some (some tok), recency := some recency },
                event.submit_write info conds.length :: launch_evs launch_cb tok)
  | write_action.delete =>
      some (ser, conds,
        { op with token := some none,
                  recency := some repli_timestamp_t.invalid }, [])
  | write_action.touch recency =>
      some (ser, conds, { op with recency := some recency }, [])

/-- Step 1 of `do_writes`: iterate the batch in input order, dispatching
each descriptor with `perform_write` on a fresh `index_write_op_t` and
accumulating handles, index ops, and events. -/
def dispatch_loop : List serializer_write_t → serializer_t →
    List write_cond_t → List index_write_op_t → List event →
    Option (serializer_t × List write_cond_t × List index_write_op_t × List event)
  | [], ser, conds, ops, evs => some (ser, conds, ops, evs)
  | w :: rest, ser, conds, ops, evs =>
      match perform_write w ser conds (index_write_op_t.init w.block_id) with
      | none => none
      | some (ser2, conds2, op, evs2) =>
          dispatch_loop rest ser2 conds2 (ops ++ [op]) (evs ++ evs2)

/-- The dispatch phase of `do_writes`, started from empty accumulators. -/
def dispatch_phase (ser : serializer_t) (writes : List serializer_write_t) :
    Option (serializer_t × List write_cond_t × List index_write_op_t × List event) :=
  dispatch_loop writes ser [] [] []

/-- Step 2 of `do_writes`: wait on every Completion Handle, in index
order. -/
def wait_events (n : Nat) : List event :=
  (List.range n).map event.wait_cond

/-- `do_writes`: dispatch every descriptor, wait on all handles, then
commit the assembled index ops with one `index_write` call.  Yields the
final serializer state, the committed op list, and the full trace. -/
def do_writes (ser : serializer_t) (writes : List serializer_write_t) :
    Option (serializer_t × List index_write_op_t × List event) :=
  match dispatch_phase ser writes with
  | none => none
  | some (ser2, conds, ops, evs) =>
      some (ser2, ops,
        evs ++ wait_events conds.length ++ [event.index_write ops])

/-- `serializer_block_write`: submit one physical write for one block,
check the one-token guarantee, wait on the local completion handle, and
return the issued token.  No index commit is performed. -/
def serializer_block_write (ser : serializer_t) (buf : Nat)
    (block_id : block_id_t) :
    Option (serializer_t × standard_block_token_t × List event) :=
  let info : buf_write_info_t :=
    { buf := convert_buffer_cache_buf_to_ser_buffer buf,
      size := ser.get_block_size, block_id := block_id }
  let res := ser.block_writes [info]
  match guarantee (res.1.length == 1) with
  | none => none
  | some _ =>
      match res.1 with
      | [] => none
      | tok :: _ =>
          some (res.2, tok,
            [event.submit_write info 0, event.wait_cond 0])

/-! ### Trace predicates and descriptor/op correspondence -/

/-- Is this event a physical-write submission? -/
def is_submit : event → Bool
  | event.submit_write _ _ => true
  | _ => false

/-- Is this event a wait on a completion handle? -/
def is_wait : event → Bool
  | event.wait_cond _ => true
  | _ => false

/-- Is this event the index commit? -/
def is_commit : event → Bool
  | event.index_write _ => true
  | _ => false

/-- Is this event the signalling of a latch? -/
def is_pulse : event → Bool
  | event.pulse_cond => true
  | _ => false

/-- The launch callbacks invoked along a trace, in trace order. -/
def launch_cbs (evs : List event) : List Nat :=
  evs.filterMap fun e =>
    match e with
    | event.launch_callback cb _ => some cb
    | _ => none

/-- The launch callbacks a batch should fire, in input order: one per
UPDATE descriptor whose launch callback is non-null. -/
def expected_launch_cbs : List serializer_write_t → List Nat
  | [] => []
  | w :: rest =>
      (match w.action with
       | write_action.update _ _ _ lcb => lcb.toList
       | _ => []) ++ expected_launch_cbs rest

/-- How the index op assembled by `perform_write` for a descriptor relates
to that descriptor: same block id; an UPDATE op carries an assigned,
non-null token and the descriptor's recency; a DELETE op carries the
assigned null token and the invalid recency; a TOUCH op has its token
field never assigned and carries the descriptor's recency. -/
def op_matches (w : serializer_write_t) (op : index_write_op_t) : Prop :=
  op.block_id = w.block_id ∧
  match w.action with
  | write_action.update _ r _ _ =>
      (∃ t, op.token = some (some t)) ∧ op.recency = some r
  | write_action.delete =>
      op.token = some none ∧ op.recency = some repli_timestamp_t.invalid
  | write_action.touch r =>
      op.token = none ∧ op.recency = some r

/-! ### Concrete instances -/

/-- A serializer with the standard 4 KiB block size and no tokens issued. -/
def wser : serializer_t := { block_size := 4096, next_token := 0 }

/-- `wser` after issuing two tokens. -/
def wser2 : serializer_t := { block_size := 4096, next_token := 2 }

/-- A batch exercising all three descriptor kinds, with two UPDATEs to the
same block identifier. -/
def wbatch : List serializer_write_t :=
  [serializer_write_t.make_update 1 (repli_timestamp_t.valid 5) 100
     (some 11) (some 21),
   serializer_write_t.make_delete 2,
   serializer_write_t.make_touch 3 (repli_timestamp_t.valid 9),
   serializer_write_t.make_update 1 (repli_timestamp_t.valid 6) 200
     none (some 22)]

/-- The index ops `do_writes wser wbatch` assembles and commits. -/
def wops : List index_write_op_t :=
  [{ block_id := 1, token := some (some 0),
     recency := some (repli_timestamp_t.valid 5) },
   { block_id := 2, token := some none,
     recency := some repli_timestamp_t.invalid },
   { block_id := 3, token := none,
     recency := some (repli_timestamp_t.valid 9) },
   { block_id := 1, token := some (some 1),
     recency := some (repli_timestamp_t.valid 6) }]

/-- The trace of `do_writes wser wbatch`. -/
def wevs : List event :=
  [event.submit_write { buf := 99, size := 4096, block_id := 1 } 0,
   event.launch_callback 21 0,
   event.submit_write { buf := 199, size := 4096, block_id := 1 } 1,
   event.launch_callback 22 1,
   event.wait_cond 0,
   event.wait_cond 1,
   event.index_write wops]

/-- A one-element UPDATE batch with null callbacks. -/
def ubatch : List serializer_write_t :=
  [serializer_write_t.make_update 7 (repli_timestamp_t.valid 5) 100 none none]

/-! ### Computation lemmas -/

theorem launch_evs_countP_submit (l : Option Nat) (t : Nat) :
    (launch_evs l t).countP is_submit = 0 := by
  cases l <;> rfl

theorem launch_evs_countP_wait (l : Option Nat) (t : Nat) :
    (launch_evs l t).countP is_wait = 0 := by
  cases l <;> rfl

theorem launch_evs_countP_commit (l : Option Nat) (t : Nat) :
    (launch_evs l t).countP is_commit = 0 := by
  cases l <;> rfl

theorem launch_cbs_launch_evs (l : Option Nat) (t : Nat) :
    launch_cbs (launch_evs l t) = l.toList := by
  cases l <;> rfl

theorem launch_cbs_append (l1 l2 : List event) :
    launch_cbs (l1 ++ l2) = launch_cbs l1 ++ launch_cbs l2 := by
  simp [launch_cbs]

theorem launch_cbs_cons_submit (info : buf_write_info_t) (n : Nat)
    (evs : List event) :
    launch_cbs (event.submit_write info n :: evs) = launch_cbs evs := rfl

theorem wait_events_countP_commit (n : Nat) :
    (wait_events n).countP is_commit = 0 := by
  refine List.countP_eq_zero.mpr ?_
  intro e he
  obtain ⟨i, _, rfl⟩ := List.mem_map.mp he
  simp [is_commit]

theorem wait_events_countP_wait (n : Nat) :
    (wait_events n).countP is_wait = n := by
  have h : ∀ e ∈ wait_events n, is_wait e := by
    intro e he
    obtain ⟨i, _, rfl⟩ := List.mem_map.mp he
    simp [is_wait]
  rw [List.countP_eq_length.mpr h]
  simp [wait_events]

theorem launch_cbs_wait_events (n : Nat) :
    launch_cbs (wait_events n) = [] := by
  refine List.filterMap_eq_nil_iff.mpr ?_
  intro e he
  obtain ⟨i, _, rfl⟩ := List.mem_map.mp he
  rfl

/-! ### Unfolding lemmas for the dispatch loop -/

theorem dispatch_loop_cons_update (bid : block_id_t) (r : repli_timestamp_t)
    (buf : Nat) (iocb lcb : Option Nat) (rest : List serializer_write_t)
    (ser : serializer_t) (conds : List write_cond_t)
    (ops : List index_write_op_t) (evs : List event) :
    dispatch_loop (⟨bid, write_action.update buf r iocb lcb⟩ :: rest)
        ser conds ops evs =
      dispatch_loop rest { ser with next_token := ser.next_token + 1 }
        (conds ++ [write_cond_t.init iocb])
        (ops ++ [{ block_id := bid, token := some (some ser.next_token),
                   recency := some r }])
        (evs ++ (event.submit_write
            { buf := convert_buffer_cache_buf_to_ser_buffer buf,
              size := ser.get_block_size, block_id := bid }
            conds.length :: launch_evs lcb ser.next_token)) := rfl

theorem dispatch_loop_cons_delete (bid : block_id_t)
    (rest : List serializer_write_t) (ser : serializer_t)
    (conds : List write_cond_t) (ops : List index_write_op_t)
    (evs : List event) :
    dispatch_loop (⟨bid, write_action.delete⟩ :: rest) ser conds ops evs =
      dispatch_loop rest ser conds
        (ops ++ [{ block_id := bid, token := some none,
                   recency := some repli_timestamp_t.invalid }])
        (evs ++ []) := rfl

theorem dispatch_loop_cons_touch (bid : block_id_t) (r : repli_timestamp_t)
    (rest : List serializer_write_t) (ser : serializer_t)
    (conds : List write_cond_t) (ops : List index_write_op_t)
    (evs : List event) :
    dispatch_loop (⟨bid, write_action.touch r⟩ :: rest) ser conds ops evs =
      dispatch_loop rest ser conds
        (ops ++ [{ block_id := bid, token := none, recency := some r }])
        (evs ++ []) := rfl

/-- Soundness of the dispatch loop: it only appends to the accumulators;
the appended ops correspond one-to-one, in input order, to the descriptors;
it emits no wait and no commit events; it creates exactly one completion
handle per submitted physical write; and the launch callbacks it fires are
exactly the expected ones, in input order. -/
theorem dispatch_loop_sound :
    ∀ (ws : List serializer_write_t) (ser : serializer_t)
      (conds : List write_cond_t) (ops : List index_write_op_t)
      (evs : List event) (ser2 : serializer_t) (conds2 : List write_cond_t)
      (ops2 : List index_write_op_t) (evs2 : List event),
      dispatch_loop ws ser conds ops evs = some (ser2, conds2, ops2, evs2) →
      ∃ dops devs,
        ops2 = ops ++ dops ∧
        evs2 = evs ++ devs ∧
        List.Forall₂ op_matches ws dops ∧
        conds2.length = conds.length + devs.countP is_submit ∧
        devs.countP is_wait = 0 ∧
        devs.countP is_commit = 0 ∧
        launch_cbs devs = expected_launch_cbs ws := by
  intro ws
  induction ws with
  | nil =>
      intro ser conds ops evs ser2 conds2 ops2 evs2 h
      simp only [dispatch_loop, Option.some.injEq, Prod.mk.injEq] at h
      obtain ⟨h1, h2, h3, h4⟩ := h
      subst h1 h2 h3 h4
      exact ⟨[], [], by simp, by simp, List.Forall₂.nil, by simp [launch_cbs],
        rfl, rfl, rfl⟩
  | cons w rest ih =>
      intro ser conds ops evs ser2 conds2 ops2 evs2 h
      obtain ⟨bid, act⟩ := w
      cases act with
      | update buf r iocb lcb =>
          rw [dispatch_loop_cons_update] at h
          obtain ⟨dops, devs, hops, hevs, hmat, hlen, hwait, hcommit, hlaunch⟩ :=
            ih _ _ _ _ _ _ _ _ h
          refine ⟨{ block_id := bid, token := some (some ser.next_token),
                    recency := some r } :: dops,
            (event.submit_write
              { buf := convert_buffer_cache_buf_to_ser_buffer buf,
                size := ser.get_block_size, block_id := bid }
              conds.length :: launch_evs lcb ser.next_token) ++ devs,
            ?_, ?_, ?_, ?_, ?_, ?_, ?_⟩
          · rw [hops]; simp
          · rw [hevs]; simp
          · exact List.Forall₂.cons ⟨rfl, ⟨ser.next_token, rfl⟩, rfl⟩ hmat
          · rw [hlen]
            simp [List.countP_append, List.countP_cons, is_submit,
              launch_evs_countP_submit]
            omega
          · simp [List.countP_append, List.countP_cons, is_wait,
              launch_evs_countP_wait, hwait]
          · simp [List.countP_append, List.countP_cons, is_commit,
              launch_evs_countP_commit, hcommit]
          · rw [launch_cbs_append, launch_cbs_cons_submit,
              launch_cbs_launch_evs, hlaunch]
            simp [expected_launch_cbs]
      | delete =>
          rw [dispatch_loop_cons_delete] at h
          obtain ⟨dops, devs, hops, hevs, hmat, hlen, hwait, hcommit, hlaunch⟩ :=
            ih _ _ _ _ _ _ _ _ h
          refine ⟨{ block_id := bid, token := some none,
                    recency := some repli_timestamp_t.invalid } :: dops,
            devs, ?_, ?_, ?_, ?_, hwait, hcommit, ?_⟩
          · rw [hops]; simp
          · rw [hevs]; simp
          · exact List.Forall₂.cons ⟨rfl, rfl, rfl⟩ hmat
          · exact hlen
          · rw [hlaunch]; simp [expected_launch_cbs]
      | touch r =>
          rw [dispatch_loop_cons_touch] at h
          obtain ⟨dops, devs, hops, hevs, hmat, hlen, hwait, hcommit, hlaunch⟩ :=
            ih _ _ _ _ _ _ _ _ h
          refine ⟨{ block_id := bid, token := none, recency := some r } :: dops,
            devs, ?_, ?_, ?_, ?_, hwait, hcommit, ?_⟩
          · rw [hops]; simp
          · rw [hevs]; simp
          · exact List.Forall₂.cons ⟨rfl, rfl, rfl⟩ hmat
          · exact hlen
          · rw [hlaunch]; simp [expected_launch_cbs]

/-- Unfolding `do_writes`: a successful run is a successful dispatch phase
followed by one wait per handle and the single commit. -/
theorem do_writes_unfold (ser : serializer_t)
    (writes : List serializer_write_t) (ser2 : serializer_t)
    (ops : List index_write_op_t) (evs : List event)
    (h : do_writes ser writes = some (ser2, ops, evs)) :
    ∃ conds devs,
      dispatch_phase ser writes = some (ser2, conds, ops, devs) ∧
      evs = devs ++ wait_events conds.length ++ [event.index_write ops] := by
  unfold do_writes at h
  cases hd : dispatch_phase ser writes with
  | none => rw [hd] at h; exact absurd h (by simp)
  | some q =>
      obtain ⟨serd, conds, opsd, devs⟩ := q
      rw [hd] at h
      simp only [Option.some.injEq, Prod.mk.injEq] at h
      obtain ⟨h1, h2, h3⟩ := h
      subst h1 h2
      exact ⟨conds, devs, rfl, h3.symm⟩

theorem launch_cbs_index_write (l : List index_write_op_t) :
    launch_cbs [event.index_write l] = [] := rfl

/-- Map the descriptor/op correspondence down to block identifiers. -/
theorem forall2_map_block_id :
    ∀ {ws : List serializer_write_t} {ops : List index_write_op_t},
    List.Forall₂ op_matches ws ops →
    ops.map index_write_op_t.block_id = ws.map serializer_write_t.block_id := by
  intro ws ops h
  induction h with
  | nil => rfl
  | cons h1 _ ih =>
      simp only [List.map_cons, ih]
      rw [h1.1]

/-! ### Claim theorems -/

/-- C1: `do_writes` never submits the index updates before every
Completion Handle created during dispatch has signalled: its trace is the
dispatch-phase events (in batch input order, containing no wait and no
commit), then a wait on every handle — exactly one handle per submitted
physical write — and finally exactly one `index_write` commit carrying the
assembled index updates. -/
theorem do_writes_commit_after_barrier (ser : serializer_t)
    (writes : List serializer_write_t) (ser2 : serializer_t)
    (ops : List index_write_op_t) (evs : List event)
    (h : do_writes ser writes = some (ser2, ops, evs)) :
    ∃ conds devs,
      dispatch_phase ser writes = some (ser2, conds, ops, devs) ∧
      evs = devs ++ wait_events conds.length ++ [event.index_write ops] ∧
      devs.countP is_wait = 0 ∧
      devs.countP is_commit = 0 ∧
      conds.length = devs.countP is_submit ∧
      evs.countP is_commit = 1 := by
  obtain ⟨conds, devs, hd, hevs⟩ := do_writes_unfold ser writes ser2 ops evs h
  obtain ⟨dops, devs2, hops, hdevs, hmat, hlen, hwait, hcommit, hlaunch⟩ :=
    dispatch_loop_sound writes ser [] [] [] ser2 conds ops devs hd
  have hde : devs = devs2 := hdevs
  refine ⟨conds, devs, hd, hevs, ?_, ?_, ?_, ?_⟩
  · rw [hde]; exact hwait
  · rw [hde]; exact hcommit
  · rw [hde]; simpa using hlen
  · rw [hevs, List.countP_append, List.countP_append,
      wait_events_countP_commit, hde, hcommit]
    simp [List.countP_cons, is_commit]

/-- C1 witness at a concrete batch. -/
theorem do_writes_commit_after_barrier_witness :
    do_writes wser wbatch = some (wser2, wops, wevs) ∧
    ∃ conds devs,
      dispatch_phase wser wbatch = some (wser2, conds, wops, devs) ∧
      wevs = devs ++ wait_events conds.length ++ [event.index_write wops] ∧
      devs.countP is_wait = 0 ∧
      devs.countP is_commit = 0 ∧
      conds.length = devs.countP is_submit ∧
      wevs.countP is_commit = 1 :=
  ⟨rfl, do_writes_commit_after_barrier wser wbatch wser2 wops wevs rfl⟩

/-- C2: dispatching a DELETE descriptor assigns the null (empty counted)
token and the invalid sentinel recency to its Index Update regardless of
the op's prior fields, performs no physical write and fires no callback
(the step's event list is empty), and creates no Completion Handle (the
handle list is returned unchanged). -/
theorem perform_write_delete_spec (bid : block_id_t) (ser : serializer_t)
    (conds : List write_cond_t) (op : index_write_op_t) :
    perform_write (serializer_write_t.make_delete bid) ser conds op =
      some (ser, conds,
        { op with token := some none,
                  recency := some repli_timestamp_t.invalid }, []) := rfl

/-- C3: dispatching a TOUCH descriptor changes only the recency field of
its Index Update — the token field is left exactly as it was (never
assigned on the fresh op `do_writes` passes in) — performs no physical
write (empty event list), creates no Completion Handle, and leaves the
serializer state untouched. -/
theorem perform_write_touch_spec (bid : block_id_t) (r : repli_timestamp_t)
    (ser : serializer_t) (conds : List write_cond_t) (op : index_write_op_t) :
    perform_write (serializer_write_t.make_touch bid r) ser conds op =
      some (ser, conds, { op with recency := some r }, []) := rfl

/-- C4: dispatching an UPDATE descriptor always succeeds (the
`tokens.size() == 1` guarantee never fails under the one-token-per-write
physical layer): exactly one token is issued (the counter advances by
one), it is attached to the descriptor's Index Update together with the
recency, exactly one Completion Handle is appended, and exactly one
physical write is submitted. -/
theorem perform_write_update_spec (bid : block_id_t) (r : repli_timestamp_t)
    (buf : Nat) (iocb lcb : Option Nat) (ser : serializer_t)
    (conds : List write_cond_t) (op : index_write_op_t) :
    perform_write (serializer_write_t.make_update bid r buf iocb lcb)
        ser conds op =
      some ({ ser with next_token := ser.next_token + 1 },
        conds ++ [write_cond_t.init iocb],
        { op with token := some (some ser.next_token), recency := some r },
        event.submit_write
          { buf := convert_buffer_cache_buf_to_ser_buffer buf,
            size := ser.get_block_size, block_id := op.block_id }
          conds.length :: launch_evs lcb ser.next_token) := rfl

/-- C5: the launch callbacks fired by `do_writes` are exactly those of its
UPDATE descriptors with non-null launch callbacks, in batch input order;
they all occur within the dispatch-phase segment of the trace, hence
strictly before `do_writes` returns (and before any wait or the commit). -/
theorem do_writes_launch_order (ser : serializer_t)
    (writes : List serializer_write_t) (ser2 : serializer_t)
    (ops : List index_write_op_t) (evs : List event)
    (h : do_writes ser writes = some (ser2, ops, evs)) :
    ∃ conds devs,
      dispatch_phase ser writes = some (ser2, conds, ops, devs) ∧
      evs = devs ++ wait_events conds.length ++ [event.index_write ops] ∧
      launch_cbs devs = expected_launch_cbs writes ∧
      launch_cbs evs = expected_launch_cbs writes := by
  obtain ⟨conds, devs, hd, hevs⟩ := do_writes_unfold ser writes ser2 ops evs h
  obtain ⟨dops, devs2, hops, hdevs, hmat, hlen, hwait, hcommit, hlaunch⟩ :=
    dispatch_loop_sound writes ser [] [] [] ser2 conds ops devs hd
  have hde : devs = devs2 := hdevs
  refine ⟨conds, devs, hd, hevs, ?_, ?_⟩
  · rw [hde]; exact hlaunch
  · rw [hevs, launch_cbs_append, launch_cbs_append, launch_cbs_wait_events,
      launch_cbs_index_write, hde, hlaunch]
    simp

/-- C5 witness at a concrete batch. -/
theorem do_writes_launch_order_witness :
    do_writes wser wbatch = some (wser2, wops, wevs) ∧
    ∃ conds devs,
      dispatch_phase wser wbatch = some (wser2, conds, wops, devs) ∧
      wevs = devs ++ wait_events conds.length ++ [event.index_write wops] ∧
      launch_cbs devs = expected_launch_cbs wbatch ∧
      launch_cbs wevs = expected_launch_cbs wbatch :=
  ⟨rfl, do_writes_launch_order wser wbatch wser2 wops wevs rfl⟩

/-- C6: delivering physical completion to an unsignalled Completion Handle
first invokes the caller-supplied completion callback when one was
supplied (and nothing when it is null), and only afterwards signals the
latch; the step's trace carries exactly one latch signal (none of it
before the callback), and delivering completion to the now-signalled
handle is fatal — the latch is signalled exactly once. -/
theorem on_io_complete_callback_then_pulse (w : write_cond_t)
    (h : w.cond.pulsed = false) :
    write_cond_t.on_io_complete w =
      some ({ w with cond := { pulsed := true } },
        (match w.callback with
         | some cb => [event.io_callback cb]
         | none => []) ++ [event.pulse_cond]) ∧
    ((match w.callback with
      | some cb => [event.io_callback cb]
      | none => []) ++ [event.pulse_cond]).countP is_pulse = 1 ∧
    ((match w.callback with
      | some cb => [event.io_callback cb]
      | none => ([] : List event))).countP is_pulse = 0 ∧
    write_cond_t.on_io_complete { w with cond := { pulsed := true } } = none := by
  obtain ⟨⟨p⟩, cb⟩ := w
  have hp : p = false := h
  subst hp
  cases cb with
  | none => exact ⟨rfl, rfl, rfl, rfl⟩
  | some c => exact ⟨rfl, rfl, rfl, rfl⟩

/-- C6 witness on a concrete unsignalled handle wrapping callback 3. -/
theorem on_io_complete_callback_then_pulse_witness :
    (write_cond_t.init (some 3)).cond.pulsed = false ∧
    (write_cond_t.on_io_complete (write_cond_t.init (some 3)) =
        some ({ cond := { pulsed := true }, callback := some 3 },
          [event.io_callback 3, event.pulse_cond]) ∧
      ([event.io_callback 3, event.pulse_cond] : List event).countP is_pulse
          = 1 ∧
      ([event.io_callback 3] : List event).countP is_pulse = 0 ∧
      write_cond_t.on_io_complete
          { cond := { pulsed := true }, callback := some 3 } = none) :=
  ⟨rfl, on_io_complete_callback_then_pulse (write_cond_t.init (some 3)) rfl⟩

/-- C7: the list `do_writes` commits contains exactly one entry per
descriptor, in batch input order, each carrying that descriptor's block
identifier, and the commit event carries exactly that list; in particular
two UPDATEs to the same block identifier yield two retained entries in
dispatch order (see the witness batch). -/
theorem do_writes_ops_per_descriptor (ser : serializer_t)
    (writes : List serializer_write_t) (ser2 : serializer_t)
    (ops : List index_write_op_t) (evs : List event)
    (h : do_writes ser writes = some (ser2, ops, evs)) :
    ops.length = writes.length ∧
    ops.map index_write_op_t.block_id =
      writes.map serializer_write_t.block_id ∧
    evs.getLast? = some (event.index_write ops) := by
  obtain ⟨conds, devs, hd, hevs⟩ := do_writes_unfold ser writes ser2 ops evs h
  obtain ⟨dops, devs2, hops, hdevs, hmat, hlen, hwait, hcommit, hlaunch⟩ :=
    dispatch_loop_sound writes ser [] [] [] ser2 conds ops devs hd
  have hod : ops = dops := hops
  subst hod
  refine ⟨hmat.length_eq.symm, forall2_map_block_id hmat, ?_⟩
  rw [hevs, List.getLast?_concat]

/-- C7 witness: a batch with two UPDATEs to block 1 plus a DELETE and a
TOUCH; the committed list retains all four entries in input order. -/
theorem do_writes_ops_per_descriptor_witness :
    do_writes wser wbatch = some (wser2, wops, wevs) ∧
    (wops.length = wbatch.length ∧
      wops.map index_write_op_t.block_id =
        wbatch.map serializer_write_t.block_id ∧
      wevs.getLast? = some (event.index_write wops)) :=
  ⟨rfl, do_writes_ops_per_descriptor wser wbatch wser2 wops wevs rfl⟩

/-- C8 counterexample: on a one-UPDATE batch, the Index Update's token is
already assigned (`some (some 0)`) at the end of the dispatch phase — it
is not a pending placeholder (`none`) to be finalized during the barrier
phase. -/
theorem token_pending_at_dispatch_cex :
    (dispatch_phase wser ubatch).map
        (fun q => q.2.2.1.map index_write_op_t.token) =
      some [some (some 0)] ∧
    (dispatch_phase wser ubatch).map
        (fun q => q.2.2.1.map index_write_op_t.token) ≠ some [none] :=
  ⟨rfl, by decide⟩

/-- C8 (amended): for every UPDATE descriptor the issued token is attached
to its Index Update synchronously during the dispatch phase (when the
physical write is submitted); the barrier phase only waits on the
Completion Handles and does not modify the Index Updates, so the list
committed is exactly the list assembled at dispatch, every UPDATE entry
already carrying an assigned, non-null token. -/
theorem tokens_attached_at_dispatch (ser : serializer_t)
    (writes : List serializer_write_t) (ser2 : serializer_t)
    (ops : List index_write_op_t) (evs : List event)
    (h : do_writes ser writes = some (ser2, ops, evs)) :
    ∃ conds devs,
      dispatch_phase ser writes = some (ser2, conds, ops, devs) ∧
      List.Forall₂ op_matches writes ops := by
  obtain ⟨conds, devs, hd, hevs⟩ := do_writes_unfold ser writes ser2 ops evs h
  obtain ⟨dops, devs2, hops, hdevs, hmat, hlen, hwait, hcommit, hlaunch⟩ :=
    dispatch_loop_sound writes ser [] [] [] ser2 conds ops devs hd
  have hod : ops = dops := hops
  subst hod
  exact ⟨conds, devs, hd, hmat⟩

/-- C8 witness at a concrete batch. -/
theorem tokens_attached_at_dispatch_witness :
    do_writes wser wbatch = some (wser2, wops, wevs) ∧
    ∃ conds devs,
      dispatch_phase wser wbatch = some (wser2, conds, wops, devs) ∧
      List.Forall₂ op_matches wbatch wops :=
  ⟨rfl, tokens_attached_at_dispatch wser wbatch wser2 wops wevs rfl⟩

/-- C9 counterexample: on the corresponding one-UPDATE input, `do_writes`
ends with an `index_write` commit that `serializer_block_write` never
performs, so the single-block path does not yield the same resulting
trace as `do_writes` on the one-element batch. -/
theorem single_block_write_same_state_cex :
    (serializer_block_write wser 100 7).map (fun q => q.2.2) ≠
      (do_writes wser ubatch).map (fun q => q.2.2) := by decide

/-- C9 (amended): `serializer_block_write` performs the same
dispatch-then-wait prefix as `do_writes` on the corresponding one-element
UPDATE batch — the identical single physical-write submission followed by
the wait on its completion handle — reaches the same serializer state and
returns the single issued token (the one attached to the batch's Index
Update); but it skips the commit phase as well as batch assembly:
`do_writes` additionally ends with the single-entry `index_write` commit,
which the single-block path omits. -/
theorem single_block_write_refines (ser : serializer_t) (buf bid : Nat)
    (r : repli_timestamp_t) :
    ∃ tok tr ser2,
      serializer_block_write ser buf bid = some (ser2, tok, tr) ∧
      do_writes ser [serializer_write_t.make_update bid r buf none none] =
        some (ser2,
          [{ block_id := bid, token := some (some tok), recency := some r }],
          tr ++ [event.index_write
            [{ block_id := bid, token := some (some tok),
               recency := some r }]]) :=
  ⟨ser.next_token,
   [event.submit_write
      { buf := convert_buffer_cache_buf_to_ser_buffer buf,
        size := ser.get_block_size, block_id := bid } 0,
    event.wait_cond 0],
   { ser with next_token := ser.next_token + 1 }, rfl, rfl⟩

/-- C10: on the empty batch `do_writes` completes with the serializer
state unchanged (no token issued), an empty op list, and a trace that is
exactly one `index_write` commit of the empty list — no handle was
created, no physical write submitted, no wait performed. -/
theorem do_writes_empty_batch (ser : serializer_t) :
    do_writes ser [] = some (ser, [], [event.index_write []]) := rfl
